import Mathlib

/-!
# Verification of `server.js` (imersao-21dias-site)

Shallow embedding of the lead-capture HTTP server in `src/server.js`:
a token provider (`getAccessToken`) that performs a JWT-bearer OAuth2
exchange with an in-memory cache, a sheet appender (`appendToSheet`),
a `/submit` handler, and a static file responder (`serveStaticFile`)
behind a router (`handleRequest`).

External effects are modelled as explicit parameters:
* the clock (`Date.now()/1000`) is an `Int` argument `now`;
* `new Date().toISOString()` is a `String` argument `timestamp`;
* the outcome of the `fetch` to the OAuth token endpoint is an
  `ExchangeOutcome` argument;
* the outcome of the `fetch` to the Sheets append endpoint is a
  `Bool` argument (`response.ok`);
* the filesystem (`fs.readFile`) is a function `String → Option String`
  (`none` models a read error);
* RSA-SHA256 signing with the service-account private key
  (`crypto.createSign('RSA-SHA256')...sign(private_key)`) is a function
  `String → List Nat` returning the raw signature bytes.

The process-wide mutable pair `cachedToken` / `tokenExpiry` is threaded
explicitly as a `TokenState`.
-/

namespace Server

/-- The process-wide mutable token cache of `server.js` lines 46-47:
`let cachedToken = null; let tokenExpiry = 0;`.  `cachedToken : Option String`
models the JS string-or-null variable. -/
structure TokenState where
  cachedToken : Option String
  tokenExpiry : Int
  deriving Repr, DecidableEq

/-- The initial cache state at process start: `cachedToken = null`,
`tokenExpiry = 0`. -/
def initialTokenState : TokenState := ⟨none, 0⟩

/-- JS truthiness of a string-or-null/undefined value: `null`, `undefined`
and the empty string are falsy, every other string is truthy.  Used for
`if (cachedToken && ...)` (line 52) and `if (!name || !surname || !email)`
(line 160). -/
def strTruthy : Option String → Bool
  | none => false
  | some s => s ≠ ""

/-- The base64url alphabet (RFC 4648 §5), as used by Node's
`Buffer.toString('base64url')`. -/
def base64Alphabet : List Char :=
  "ABCDEFGHIJKLMNOPQRSTUVWXYZabcdefghijklmnopqrstuvwxyz0123456789-_".toList

/-- The character for a 6-bit group. -/
def base64Char (n : Nat) : Char := base64Alphabet.getD n 'A'

/-- base64url-encode a byte list, 3 bytes → 4 chars, unpadded (Node's
`base64url` encoding emits no `=` padding). -/
def base64urlBytesAux : List Nat → List Char
  | [] => []
  | [a] => [base64Char (a / 4), base64Char (a % 4 * 16)]
  | [a, b] => [base64Char (a / 4), base64Char (a % 4 * 16 + b / 16), base64Char (b % 16 * 4)]
  | a :: b :: c :: rest =>
      base64Char (a / 4) :: base64Char (a % 4 * 16 + b / 16) ::
      base64Char (b % 16 * 4 + c / 64) :: base64Char (c % 64) :: base64urlBytesAux rest

/-- base64url encoding of raw bytes as a string. -/
def base64urlBytes (bs : List Nat) : String := String.mk (base64urlBytesAux bs)

/-- UTF-8 encoding of a single code point. -/
def utf8BytesOfChar (c : Char) : List Nat :=
  let n := c.toNat
  if n < 128 then [n]
  else if n < 2048 then [192 + n / 64, 128 + n % 64]
  else if n < 65536 then [224 + n / 4096, 128 + n / 64 % 64, 128 + n % 64]
  else [240 + n / 262144, 128 + n / 4096 % 64, 128 + n / 64 % 64, 128 + n % 64]

/-- The UTF-8 bytes of a string, as `Buffer.from(input)` produces. -/
def strBytes (s : String) : List Nat := s.toList.flatMap utf8BytesOfChar

/-- `base64url` helper of `server.js` lines 39-41:
`Buffer.from(input).toString('base64url')`. -/
def base64url (s : String) : String := base64urlBytes (strBytes s)

/-- Lower-case hex digit. -/
def hexDigit (n : Nat) : Char :=
  if n < 10 then Char.ofNat (48 + n) else Char.ofNat (87 + n)

/-- `JSON.stringify` escaping of a single character inside a string
literal. -/
def jsonEscapeChar (c : Char) : String :=
  if c = '"' then "\\\""
  else if c = '\\' then "\\\\"
  else if c = '\n' then "\\n"
  else if c = '\r' then "\\r"
  else if c = '\t' then "\\t"
  else if c.toNat = 8 then "\\b"
  else if c.toNat = 12 then "\\f"
  else if c.toNat < 32 then
    String.mk ['\\', 'u', '0', '0', hexDigit (c.toNat / 16), hexDigit (c.toNat % 16)]
  else String.singleton c

/-- `JSON.stringify` escaping of a string body. -/
def jsonEscape (s : String) : String := String.join (s.toList.map jsonEscapeChar)

/-- A JSON string literal: `JSON.stringify` of a JS string. -/
def jsonString (s : String) : String := "\"" ++ jsonEscape s ++ "\""

/-- `JSON.stringify({ alg: 'RS256', typ: 'JWT' })` — the JWT header of
`server.js` line 56 (JS object keys serialize in insertion order). -/
def jwtHeaderJson : String := "\x7b\"alg\":\"RS256\",\"typ\":\"JWT\"\x7d"

/-- `JSON.stringify(payload)` for the claim set of `server.js` lines 57-63:
`{ iss: client_email, scope: ..., aud: ..., exp: now + 3600, iat: now }`. -/
def jwtPayloadJson (clientEmail : String) (now : Int) : String :=
  "\x7b\"iss\":" ++ jsonString clientEmail
    ++ ",\"scope\":\"https://www.googleapis.com/auth/spreadsheets\""
    ++ ",\"aud\":\"https://oauth2.googleapis.com/token\""
    ++ ",\"exp\":" ++ toString (now + 3600)
    ++ ",\"iat\":" ++ toString now
    ++ "\x7d"

/-- `unsignedToken` of `server.js` line 64: the base64url-encoded header and
payload joined by a dot. -/
def unsignedToken (clientEmail : String) (now : Int) : String :=
  base64url jwtHeaderJson ++ "." ++ base64url (jwtPayloadJson clientEmail now)

/-- `signedJwt` of `server.js` lines 65-69: the unsigned token, a dot, and
the base64url-encoded RSA-SHA256 signature of the unsigned token.  `sign`
abstracts `crypto.createSign('RSA-SHA256')` + `.sign(private_key)` and
returns the raw signature bytes. -/
def buildSignedJwt (clientEmail : String) (now : Int) (sign : String → List Nat) : String :=
  unsignedToken clientEmail now ++ "." ++ base64urlBytes (sign (unsignedToken clientEmail now))

/-- Outcome of the `fetch` to `https://oauth2.googleapis.com/token`
(`server.js` lines 74-79): either the transport/JSON-decode step throws, or a
response arrives with `response.ok`, `data.access_token`, `data.expires_in`. -/
inductive ExchangeOutcome where
  | transportError
  | response (ok : Bool) (accessToken : String) (expiresIn : Int)
  deriving Repr, DecidableEq

/-- An exchange attempt that fails: transport error or non-2xx response. -/
def ExchangeOutcome.failing : ExchangeOutcome → Prop
  | .transportError => True
  | .response ok _ _ => ok = false

/-- Result of one execution of `getAccessToken`: the returned token or the
thrown error, the cache state afterwards, the number of token-exchange
network calls made (0 or 1), and the signed assertion POSTed (if any). -/
structure TokenResult where
  result : Except String String
  state : TokenState
  exchangeCalls : Nat
  assertionSent : Option String
  deriving Repr

/-- `getAccessToken` of `server.js` lines 49-86.  Line 52: return the cached
token with no network call when `cachedToken && tokenExpiry - 5 > now`.
Otherwise build and sign the JWT (lines 56-69), POST it (lines 71-78), and
on `response.ok` cache the pair `(data.access_token, now + data.expires_in)`
(lines 83-84); on failure throw, leaving the cache untouched. -/
def getAccessToken (clientEmail : String) (sign : String → List Nat)
    (st : TokenState) (now : Int) (outcome : ExchangeOutcome) : TokenResult :=
  if strTruthy st.cachedToken = true ∧ st.tokenExpiry - 5 > now then
    ⟨.ok (st.cachedToken.getD ""), st, 0, none⟩
  else
    let jwt := buildSignedJwt clientEmail now sign
    match outcome with
    | .transportError => ⟨.error "fetch failed", st, 1, some jwt⟩
    | .response ok tok e =>
        if ok then ⟨.ok tok, ⟨some tok, now + e⟩, 1, some jwt⟩
        else ⟨.error "Token request failed", st, 1, some jwt⟩

/-- Result of one execution of `appendToSheet`: success or thrown error, the
token-cache state afterwards, the token-exchange call count, and the
assertion POSTed to the token endpoint (if any). -/
structure AppendCallResult where
  result : Except String Unit
  state : TokenState
  exchangeCalls : Nat
  assertionSent : Option String
  sentRows : List (List String)
  deriving Repr

/-- `appendToSheet` of `server.js` lines 89-107: obtain a token via
`getAccessToken` (a thrown auth error propagates before the Sheets fetch is
issued), then POST the row to the Sheets append endpoint; throw on a
non-`ok` response.  `appendOk` models `response.ok` of the Sheets fetch
(line 103). -/
def appendToSheet (clientEmail : String) (sign : String → List Nat)
    (st : TokenState) (now : Int) (outcome : ExchangeOutcome) (appendOk : Bool)
    (values : List String) : AppendCallResult :=
  let tr := getAccessToken clientEmail sign st now outcome
  match tr.result with
  | .error e => ⟨.error e, tr.state, tr.exchangeCalls, tr.assertionSent, []⟩
  | .ok _ =>
      if appendOk then ⟨.ok (), tr.state, tr.exchangeCalls, tr.assertionSent, [values]⟩
      else ⟨.error "Sheets append failed", tr.state, tr.exchangeCalls, tr.assertionSent, [values]⟩

/-- The parsed JSON body of a `/submit` request, `server.js` line 159:
`const { name, surname, birthdate, whatsapp, email } = data;`.  Each field
is `none` when absent from the JSON object (JS `undefined`). -/
structure SubmitBody where
  name : Option String
  surname : Option String
  birthdate : Option String
  whatsapp : Option String
  email : Option String
  deriving Repr, DecidableEq

/-- Outcome of `JSON.parse(body)` on line 158: `failed` models a thrown
`SyntaxError` (caught by the handler's `try`/`catch`). -/
inductive BodyParse where
  | failed
  | parsed (b : SubmitBody)
  deriving Repr, DecidableEq

/-- Response body of `server.js` line 168. -/
def successBody : String := "\x7b\"message\":\"Dados enviados com sucesso!\"\x7d"

/-- Response body of `server.js` line 162. -/
def validationErrorBody : String := "\x7b\"error\":\"Nome, sobrenome e email são obrigatórios.\"\x7d"

/-- Response body of `server.js` line 172. -/
def genericErrorBody : String := "\x7b\"error\":\"Erro ao processar a solicitação.\"\x7d"

/-- Result of the `/submit` handler body (`server.js` lines 156-174): HTTP
status and JSON body of the response, the token-cache state afterwards, the
token-exchange call count, and the list of rows passed to `appendToSheet`. -/
structure SubmitOutcome where
  status : Nat
  body : String
  state : TokenState
  exchangeCalls : Nat
  appendArgs : List (List String)
  deriving Repr

/-- The `req.on('end', ...)` callback of the `/submit` branch, `server.js`
lines 156-174: parse the buffered body (a parse error is caught → 500);
reject with 400 when `!name || !surname || !email`; otherwise build the row
`[timestamp, name, surname, birthdate || '', whatsapp || '', email]` and
await `appendToSheet`; 200 on success, any thrown error → 500.
`timestamp` models `new Date().toISOString()` (line 164). -/
def processSubmit (clientEmail : String) (sign : String → List Nat)
    (st : TokenState) (now : Int) (timestamp : String)
    (outcome : ExchangeOutcome) (appendOk : Bool) (parse : BodyParse) : SubmitOutcome :=
  match parse with
  | .failed => ⟨500, genericErrorBody, st, 0, []⟩
  | .parsed b =>
      if !strTruthy b.name || !strTruthy b.surname || !strTruthy b.email then
        ⟨400, validationErrorBody, st, 0, []⟩
      else
        let row := [timestamp, b.name.getD "", b.surname.getD "",
                    b.birthdate.getD "", b.whatsapp.getD "", b.email.getD ""]
        let ar := appendToSheet clientEmail sign st now outcome appendOk row
        match ar.result with
        | .ok _ => ⟨200, successBody, ar.state, ar.exchangeCalls, [row]⟩
        | .error _ => ⟨500, genericErrorBody, ar.state, ar.exchangeCalls, [row]⟩

/-- Index of the last `.` in a character list, if any. -/
def lastDotIndex : List Char → Option Nat
  | [] => none
  | c :: cs =>
      match lastDotIndex cs with
      | some i => some (i + 1)
      | none => if c = '.' then some 0 else none

/-- Model of Node's `path.extname`: the suffix of the basename (the part of
the path after the last `/`) from its last `.` (inclusive); empty when the
basename has no dot or only a leading dot. -/
def extname (p : String) : String :=
  let base := (p.toList.reverse.takeWhile (fun c => c ≠ '/')).reverse
  match lastDotIndex base with
  | none => ""
  | some 0 => ""
  | some i => String.mk (base.drop i)

/-- The `mimeTypes` table of `server.js` lines 124-132. -/
def mimeTypes : List (String × String) :=
  [(".html", "text/html"), (".css", "text/css"), (".js", "application/javascript"),
   (".png", "image/png"), (".jpg", "image/jpeg"), (".jpeg", "image/jpeg"),
   (".svg", "image/svg+xml")]

/-- `mimeTypes[ext] || 'application/octet-stream'` (`server.js` line 133). -/
def contentTypeFor (ext : String) : String :=
  (mimeTypes.lookup ext).getD "application/octet-stream"

/-- `String.toLowerCase` of JS, restricted to ASCII as the extension table
needs: lower-case every character. -/
def lowerString (s : String) : String := String.mk (s.toList.map Char.toLower)

/-- A response written by the static responder: status, headers passed to
`writeHead`, and body (`none` models `res.end(undefined)`). -/
structure StaticResponse where
  status : Nat
  headers : List (String × String)
  body : Option String
  deriving Repr, DecidableEq

/-- `serveStaticFile` of `server.js` lines 113-138.  `fsRead` models
`fs.readFile` (`none` = any read error).  On a read error of `filePath` the
responder falls back to reading `indexPath` (`path.join(__dirname,
'index.html')`) and writes 200/`text/html` with whatever that read produced
— even when the fallback read itself errors, it still writes 200 with an
undefined (empty) body.  On success it writes 200 with the content type
inferred from the (lower-cased) extension. -/
def serveStaticFile (fsRead : String → Option String) (filePath indexPath : String) :
    StaticResponse :=
  match fsRead filePath with
  | none =>
      match fsRead indexPath with
      | some indexContent => ⟨200, [("Content-Type", "text/html")], some indexContent⟩
      | none => ⟨200, [("Content-Type", "text/html")], none⟩
  | some content =>
      ⟨200, [("Content-Type", contentTypeFor (lowerString (extname filePath)))], some content⟩

/-- Model of Node's `path.join` for the two-argument uses in `server.js`
(lines 117, 177, 180): concatenate with a single separator (dot-segment
normalization is not needed for these uses and is not modelled). -/
def pathJoin (a b : String) : String :=
  match b.toList with
  | '/' :: rest => a ++ "/" ++ String.mk rest
  | _ => a ++ "/" ++ b

/-- The three CORS headers set on every response (`server.js` lines
144-146). -/
def corsHeaders : List (String × String) :=
  [("Access-Control-Allow-Origin", "*"),
   ("Access-Control-Allow-Methods", "GET, POST, OPTIONS"),
   ("Access-Control-Allow-Headers", "Content-Type")]

/-- An HTTP response of the server: status, headers (the CORS headers set by
`setHeader` plus those passed to `writeHead`), and body. -/
structure HttpResponse where
  status : Nat
  headers : List (String × String)
  body : Option String
  deriving Repr, DecidableEq

/-- Result of handling one request: the response, the token-cache state
afterwards, the token-exchange call count, and the rows passed to
`appendToSheet`. -/
structure ServerOutcome where
  response : HttpResponse
  state : TokenState
  exchangeCalls : Nat
  appendArgs : List (List String)
  deriving Repr

/-- The `http.createServer` request handler of `server.js` lines 141-184.
CORS headers are set on every response (lines 144-146); `OPTIONS` requests
short-circuit with 204 and no body (lines 147-150); `POST /submit` runs the
submission handler (lines 151-174); everything else maps the raw pathname
onto the project root (`dirname` models `__dirname`), with `/` and the empty
pathname defaulting to `index.html`, and serves it via `serveStaticFile`
(lines 175-183). -/
def handleRequest (clientEmail : String) (sign : String → List Nat) (dirname : String)
    (fsRead : String → Option String) (st : TokenState) (now : Int) (timestamp : String)
    (outcome : ExchangeOutcome) (appendOk : Bool)
    (method pathname : String) (parse : BodyParse) : ServerOutcome :=
  if method = "OPTIONS" then
    ⟨⟨204, corsHeaders, none⟩, st, 0, []⟩
  else if method = "POST" ∧ pathname = "/submit" then
    let o := processSubmit clientEmail sign st now timestamp outcome appendOk parse
    ⟨⟨o.status, corsHeaders ++ [("Content-Type", "application/json")], some o.body⟩,
     o.state, o.exchangeCalls, o.appendArgs⟩
  else
    let filePath :=
      if pathname = "/" ∨ pathname = "" then pathJoin dirname "index.html"
      else pathJoin dirname pathname
    let r := serveStaticFile fsRead filePath (pathJoin dirname "index.html")
    ⟨⟨r.status, corsHeaders ++ r.headers, r.body⟩, st, 0, []⟩

/-! ## Helper lemmas -/

/-- On a cache hit (truthy cached token, expiry minus 5 still in the
future), `getAccessToken` returns the cached token with no network call and
no state change. -/
theorem getAccessToken_hit (clientEmail : String) (sign : String → List Nat)
    (st : TokenState) (now : Int) (outcome : ExchangeOutcome)
    (htruthy : strTruthy st.cachedToken = true) (hfresh : st.tokenExpiry - 5 > now) :
    getAccessToken clientEmail sign st now outcome =
      ⟨.ok (st.cachedToken.getD ""), st, 0, none⟩ := by
  unfold getAccessToken
  rw [if_pos ⟨htruthy, hfresh⟩]

/-- On a cache miss followed by a successful exchange, `getAccessToken`
returns the fresh token, replaces the cache pair, and makes one call. -/
theorem getAccessToken_miss_success (clientEmail : String) (sign : String → List Nat)
    (st : TokenState) (now : Int) (tok : String) (e : Int)
    (hmiss : ¬(strTruthy st.cachedToken = true ∧ st.tokenExpiry - 5 > now)) :
    getAccessToken clientEmail sign st now (.response true tok e) =
      ⟨.ok tok, ⟨some tok, now + e⟩, 1, some (buildSignedJwt clientEmail now sign)⟩ := by
  unfold getAccessToken
  rw [if_neg hmiss]
  rfl

/-- For a valid body, the `/submit` handler's resulting cache state and
exchange-call count are exactly those of the inner `getAccessToken` run. -/
theorem processSubmit_token_projections (clientEmail : String) (sign : String → List Nat)
    (st : TokenState) (now : Int) (timestamp : String) (outcome : ExchangeOutcome)
    (appendOk : Bool) (b : SubmitBody)
    (hname : strTruthy b.name = true) (hsurname : strTruthy b.surname = true)
    (hemail : strTruthy b.email = true) :
    (processSubmit clientEmail sign st now timestamp outcome appendOk (.parsed b)).state =
      (getAccessToken clientEmail sign st now outcome).state ∧
    (processSubmit clientEmail sign st now timestamp outcome appendOk (.parsed b)).exchangeCalls =
      (getAccessToken clientEmail sign st now outcome).exchangeCalls := by
  unfold processSubmit appendToSheet
  simp only [hname, hsurname, hemail, Bool.not_true, Bool.or_self, Bool.false_or]
  cases h : (getAccessToken clientEmail sign st now outcome).result with
  | error e => simp
  | ok t => cases appendOk <;> simp

/-- When the requested file cannot be read and the fallback index read
succeeds, the static responder returns 200/`text/html` with the index
content. -/
theorem serveStaticFile_error_fallback (fsRead : String → Option String)
    (filePath indexPath idx : String)
    (hmiss : fsRead filePath = none) (hidx : fsRead indexPath = some idx) :
    serveStaticFile fsRead filePath indexPath =
      ⟨200, [("Content-Type", "text/html")], some idx⟩ := by
  unfold serveStaticFile
  rw [hmiss, hidx]

/-! ## Claims -/

/-- C5: the cached token state is only ever updated as a pair — every
execution of `getAccessToken` either leaves the cache exactly as it was, or
(on a successful exchange) replaces both the access token and the expiry
(computed as `now` plus the returned lifetime) together, returning that
token.  No execution updates one field without the other. -/
theorem token_cache_updated_as_pair (clientEmail : String) (sign : String → List Nat)
    (st : TokenState) (now : Int) (outcome : ExchangeOutcome) :
    (getAccessToken clientEmail sign st now outcome).state = st ∨
    ∃ tok e, outcome = .response true tok e ∧
      (getAccessToken clientEmail sign st now outcome).state =
        ⟨some tok, now + e⟩ ∧
      (getAccessToken clientEmail sign st now outcome).result = .ok tok := by
  unfold getAccessToken
  by_cases hc : strTruthy st.cachedToken = true ∧ st.tokenExpiry - 5 > now
  · rw [if_pos hc]
    exact Or.inl rfl
  · rw [if_neg hc]
    cases outcome with
    | transportError => exact Or.inl rfl
    | response ok tok e =>
        cases ok with
        | false => exact Or.inl rfl
        | true => exact Or.inr ⟨tok, e, rfl, rfl, rfl⟩

/-- C6: on every cache miss, the signed assertion sent to the token endpoint
is the base64url-encoded header `{"alg":"RS256","typ":"JWT"}` and the
base64url-encoded claim set `{iss: service-account email, scope:
spreadsheets scope, aud: token endpoint, exp: now+3600, iat: now}` joined by
a dot, with the base64url-encoded RSA-SHA256 signature of that dot-joined
pair appended as the third dot-separated part. -/
theorem jwt_assertion_construction (clientEmail : String) (sign : String → List Nat)
    (st : TokenState) (now : Int) (outcome : ExchangeOutcome)
    (hmiss : ¬(strTruthy st.cachedToken = true ∧ st.tokenExpiry - 5 > now)) :
    (getAccessToken clientEmail sign st now outcome).assertionSent =
      some (base64url jwtHeaderJson ++ "." ++ base64url (jwtPayloadJson clientEmail now)
        ++ "." ++ base64urlBytes (sign (base64url jwtHeaderJson ++ "."
          ++ base64url (jwtPayloadJson clientEmail now)))) ∧
    jwtHeaderJson = "\x7b\"alg\":\"RS256\",\"typ\":\"JWT\"\x7d" ∧
    jwtPayloadJson clientEmail now =
      "\x7b\"iss\":" ++ jsonString clientEmail
        ++ ",\"scope\":\"https://www.googleapis.com/auth/spreadsheets\""
        ++ ",\"aud\":\"https://oauth2.googleapis.com/token\""
        ++ ",\"exp\":" ++ toString (now + 3600)
        ++ ",\"iat\":" ++ toString now ++ "\x7d" ∧
    jsonString clientEmail = "\"" ++ jsonEscape clientEmail ++ "\"" := by
  refine ⟨?_, rfl, rfl, rfl⟩
  unfold getAccessToken
  rw [if_neg hmiss]
  cases outcome with
  | transportError => rfl
  | response ok tok e => cases ok <;> rfl

/-- C7: for every static-file request whose target file cannot be read, the
responder returns 200 with the main page (`index.html`) content — not a 404
or any error response. -/
theorem static_read_error_serves_index (fsRead : String → Option String)
    (filePath indexPath idx : String)
    (hmiss : fsRead filePath = none) (hidx : fsRead indexPath = some idx) :
    serveStaticFile fsRead filePath indexPath =
      ⟨200, [("Content-Type", "text/html")], some idx⟩ :=
  serveStaticFile_error_fallback fsRead filePath indexPath idx hmiss hidx

/-- C9: the static responder answers 200 under every filesystem outcome; in
particular, when the fallback read of the index also fails it still writes a
200 with an empty body — no code path produces any other status. -/
theorem static_responder_always_200 (fsRead : String → Option String)
    (filePath indexPath : String) :
    (serveStaticFile fsRead filePath indexPath).status = 200 ∧
    (fsRead filePath = none → fsRead indexPath = none →
      (serveStaticFile fsRead filePath indexPath).body = none) := by
  cases h1 : fsRead filePath with
  | some c => simp [serveStaticFile, h1]
  | none =>
      cases h2 : fsRead indexPath with
      | some idx => simp [serveStaticFile, h1, h2]
      | none => simp [serveStaticFile, h1, h2]

/-- C1: when a (non-empty) cached token exists and its recorded expiry minus
the 5-second safety margin is strictly later than the current time,
`getAccessToken` returns the cached token immediately with no token-exchange
call and no state change; consequently two valid submissions starting from
the initial empty cache, the second falling within the validity window of
the token obtained by the first, trigger exactly one token-exchange call in
total. -/
theorem token_cache_reuse
    (clientEmail : String) (sign : String → List Nat) (st : TokenState)
    (now now1 now2 : Int) (outcome outcome2 : ExchangeOutcome)
    (t tok : String) (e : Int) (ts1 ts2 : String) (ap1 ap2 : Bool) (b1 b2 : SubmitBody)
    (hcached : st.cachedToken = some t) (htne : t ≠ "")
    (hfresh : st.tokenExpiry - 5 > now)
    (htok : tok ≠ "") (hwin : now1 + e - 5 > now2)
    (hb1n : strTruthy b1.name = true) (hb1s : strTruthy b1.surname = true)
    (hb1e : strTruthy b1.email = true)
    (hb2n : strTruthy b2.name = true) (hb2s : strTruthy b2.surname = true)
    (hb2e : strTruthy b2.email = true) :
    getAccessToken clientEmail sign st now outcome = ⟨.ok t, st, 0, none⟩ ∧
    (processSubmit clientEmail sign initialTokenState now1 ts1 (.response true tok e) ap1
        (.parsed b1)).exchangeCalls +
      (processSubmit clientEmail sign
          (processSubmit clientEmail sign initialTokenState now1 ts1 (.response true tok e)
              ap1 (.parsed b1)).state
          now2 ts2 outcome2 ap2 (.parsed b2)).exchangeCalls = 1 := by
  constructor
  · have htr : strTruthy st.cachedToken = true := by
      rw [hcached]; simp [strTruthy, htne]
    rw [getAccessToken_hit clientEmail sign st now outcome htr hfresh, hcached]
    rfl
  · have h1 := processSubmit_token_projections clientEmail sign initialTokenState now1 ts1
      (.response true tok e) ap1 b1 hb1n hb1s hb1e
    have hmiss : ¬(strTruthy initialTokenState.cachedToken = true ∧
        initialTokenState.tokenExpiry - 5 > now1) := by
      simp [initialTokenState, strTruthy]
    have hg1 := getAccessToken_miss_success clientEmail sign initialTokenState now1 tok e hmiss
    have hstate : (processSubmit clientEmail sign initialTokenState now1 ts1
        (.response true tok e) ap1 (.parsed b1)).state = ⟨some tok, now1 + e⟩ := by
      rw [h1.1, hg1]
    have hcalls1 : (processSubmit clientEmail sign initialTokenState now1 ts1
        (.response true tok e) ap1 (.parsed b1)).exchangeCalls = 1 := by
      rw [h1.2, hg1]
    have h2 := processSubmit_token_projections clientEmail sign ⟨some tok, now1 + e⟩ now2 ts2
      outcome2 ap2 b2 hb2n hb2s hb2e
    have hhit := getAccessToken_hit clientEmail sign ⟨some tok, now1 + e⟩ now2 outcome2
      (by simp [strTruthy, htok]) hwin
    have hcalls2 : (processSubmit clientEmail sign (⟨some tok, now1 + e⟩ : TokenState) now2 ts2
        outcome2 ap2 (.parsed b2)).exchangeCalls = 0 := by
      rw [h2.2, hhit]
    rw [hstate, hcalls1, hcalls2]

/-- C2: for every valid submission (name, surname, email present and
non-empty) whose token exchange and append both succeed, the single row
passed to the sheet appender is `[timestamp, name, surname, birthdate,
whatsapp, email]` with absent optional fields replaced by the empty string,
and the response is 200 with the success payload. -/
theorem submit_valid_row_200
    (clientEmail : String) (sign : String → List Nat) (st : TokenState) (now : Int)
    (timestamp tok : String) (e : Int) (b : SubmitBody)
    (hname : strTruthy b.name = true) (hsurname : strTruthy b.surname = true)
    (hemail : strTruthy b.email = true) :
    (processSubmit clientEmail sign st now timestamp (.response true tok e) true
        (.parsed b)).appendArgs =
      [[timestamp, b.name.getD "", b.surname.getD "", b.birthdate.getD "",
        b.whatsapp.getD "", b.email.getD ""]] ∧
    (processSubmit clientEmail sign st now timestamp (.response true tok e) true
        (.parsed b)).status = 200 ∧
    (processSubmit clientEmail sign st now timestamp (.response true tok e) true
        (.parsed b)).body = successBody := by
  unfold processSubmit appendToSheet
  simp only [hname, hsurname, hemail, Bool.not_true, Bool.or_self, Bool.false_or]
  by_cases hc : strTruthy st.cachedToken = true ∧ st.tokenExpiry - 5 > now
  · rw [getAccessToken_hit clientEmail sign st now (.response true tok e) hc.1 hc.2]
    simp
  · rw [getAccessToken_miss_success clientEmail sign st now tok e hc]
    simp

/-- C3: for every `POST /submit` whose parsed body is missing `name`,
`surname` or `email` (or has one of them empty), the response is 400 with
the validation-error payload, no row is passed to the sheet appender, no
token-exchange call is made networkwise, and the token cache is untouched. -/
theorem submit_missing_field_400
    (clientEmail : String) (sign : String → List Nat) (dirname : String)
    (fsRead : String → Option String) (st : TokenState) (now : Int)
    (timestamp : String) (outcome : ExchangeOutcome) (appendOk : Bool) (b : SubmitBody)
    (hinv : strTruthy b.name = false ∨ strTruthy b.surname = false ∨
      strTruthy b.email = false) :
    processSubmit clientEmail sign st now timestamp outcome appendOk (.parsed b) =
      ⟨400, validationErrorBody, st, 0, []⟩ ∧
    handleRequest clientEmail sign dirname fsRead st now timestamp outcome appendOk
        "POST" "/submit" (.parsed b) =
      ⟨⟨400, corsHeaders ++ [("Content-Type", "application/json")],
        some validationErrorBody⟩, st, 0, []⟩ := by
  have hcond : (!strTruthy b.name || !strTruthy b.surname || !strTruthy b.email) = true := by
    rcases hinv with h | h | h <;> simp [h]
  have h1 : processSubmit clientEmail sign st now timestamp outcome appendOk (.parsed b) =
      ⟨400, validationErrorBody, st, 0, []⟩ := by
    unfold processSubmit
    simp only [hcond, if_true]
  refine ⟨h1, ?_⟩
  unfold handleRequest
  rw [if_neg (by decide : ¬(("POST" : String) = "OPTIONS")), if_pos ⟨rfl, rfl⟩, h1]

/-- C4: every token-exchange attempt that fails (transport error or non-2xx
response) makes `getAccessToken` raise an error leaving the cached pair
exactly as before the attempt, and the enclosing valid submission fails with
500, again with the cache unchanged. -/
theorem token_exchange_failure_500_cache_unchanged
    (clientEmail : String) (sign : String → List Nat) (st : TokenState) (now : Int)
    (timestamp : String) (outcome : ExchangeOutcome) (appendOk : Bool) (b : SubmitBody)
    (hfail : outcome.failing)
    (hmiss : ¬(strTruthy st.cachedToken = true ∧ st.tokenExpiry - 5 > now))
    (hname : strTruthy b.name = true) (hsurname : strTruthy b.surname = true)
    (hemail : strTruthy b.email = true) :
    (∃ msg, (getAccessToken clientEmail sign st now outcome).result = .error msg) ∧
    (getAccessToken clientEmail sign st now outcome).state = st ∧
    (processSubmit clientEmail sign st now timestamp outcome appendOk
        (.parsed b)).status = 500 ∧
    (processSubmit clientEmail sign st now timestamp outcome appendOk
        (.parsed b)).body = genericErrorBody ∧
    (processSubmit clientEmail sign st now timestamp outcome appendOk
        (.parsed b)).state = st := by
  have hg : ∃ msg, getAccessToken clientEmail sign st now outcome =
      ⟨.error msg, st, 1, some (buildSignedJwt clientEmail now sign)⟩ := by
    cases outcome with
    | transportError =>
        exact ⟨"fetch failed", by unfold getAccessToken; rw [if_neg hmiss]⟩
    | response ok tok e =>
        have : ok = false := hfail
        subst this
        exact ⟨"Token request failed", by unfold getAccessToken; rw [if_neg hmiss]; rfl⟩
  obtain ⟨msg, hgeq⟩ := hg
  refine ⟨⟨msg, by rw [hgeq]⟩, by rw [hgeq], ?_, ?_, ?_⟩ <;>
    · unfold processSubmit appendToSheet
      simp only [hname, hsurname, hemail, Bool.not_true, Bool.or_self, Bool.false_or]
      rw [hgeq]
      simp

/-- C8: every `OPTIONS` request, to any path, receives 204 with an empty
body, and every response of the server — any method, any path, any
branch — carries the three permissive cross-origin headers as a prefix of
its header list. -/
theorem cors_on_every_response_and_options_204
    (clientEmail : String) (sign : String → List Nat) (dirname : String)
    (fsRead : String → Option String) (st : TokenState) (now : Int)
    (timestamp : String) (outcome : ExchangeOutcome) (appendOk : Bool)
    (method pathname : String) (parse : BodyParse) :
    (∃ rest, (handleRequest clientEmail sign dirname fsRead st now timestamp outcome
        appendOk method pathname parse).response.headers = corsHeaders ++ rest) ∧
    (method = "OPTIONS" →
      handleRequest clientEmail sign dirname fsRead st now timestamp outcome appendOk
          method pathname parse = ⟨⟨204, corsHeaders, none⟩, st, 0, []⟩) := by
  constructor
  · unfold handleRequest
    by_cases h1 : method = "OPTIONS"
    · rw [if_pos h1]
      exact ⟨[], by simp⟩
    · rw [if_neg h1]
      by_cases h2 : method = "POST" ∧ pathname = "/submit"
      · rw [if_pos h2]
        exact ⟨[("Content-Type", "application/json")], rfl⟩
      · rw [if_neg h2]
        exact ⟨_, rfl⟩
  · intro h
    unfold handleRequest
    rw [if_pos h]

/-- C10 counterexample: an `OPTIONS` request to `/submit` is a non-`POST`
request to `/submit`, yet it does not fall through to the static file
responder — even with a filesystem that would serve the main page, the
response is 204 with no body, not 200 with the main page content. -/
theorem options_submit_not_static :
    (handleRequest "svc@example.com" (fun _ => [0]) "/app" (fun _ => some "INDEX")
        initialTokenState 0 "TS" .transportError true "OPTIONS" "/submit"
        .failed).response.status = 204 ∧
    (handleRequest "svc@example.com" (fun _ => [0]) "/app" (fun _ => some "INDEX")
        initialTokenState 0 "TS" .transportError true "OPTIONS" "/submit"
        .failed).response.body = none ∧
    (handleRequest "svc@example.com" (fun _ => [0]) "/app" (fun _ => some "INDEX")
        initialTokenState 0 "TS" .transportError true "OPTIONS" "/submit"
        .failed).response.status ≠ 200 := by
  refine ⟨rfl, rfl, ?_⟩
  decide

/-- C10 (amended): a non-`POST`, non-`OPTIONS` request to `/submit` is not
rejected with a method-not-allowed error: it falls through to the static
file responder, which joins the raw path onto the project root, finds no
such file, and returns 200 with the main page content.  (`OPTIONS /submit`
instead short-circuits with 204.) -/
theorem non_post_submit_falls_through_to_static
    (clientEmail : String) (sign : String → List Nat) (dirname : String)
    (fsRead : String → Option String) (st : TokenState) (now : Int)
    (timestamp : String) (outcome : ExchangeOutcome) (appendOk : Bool)
    (method idx : String) (parse : BodyParse)
    (hm1 : method ≠ "POST") (hm2 : method ≠ "OPTIONS")
    (hmiss : fsRead (pathJoin dirname "/submit") = none)
    (hidx : fsRead (pathJoin dirname "index.html") = some idx) :
    handleRequest clientEmail sign dirname fsRead st now timestamp outcome appendOk
        method "/submit" parse =
      ⟨⟨200, corsHeaders ++ [("Content-Type", "text/html")], some idx⟩, st, 0, []⟩ := by
  unfold handleRequest
  rw [if_neg hm2, if_neg (by intro h; exact hm1 h.1)]
  rw [if_neg (by decide : ¬(("/submit" : String) = "/" ∨ ("/submit" : String) = ""))]
  simp only [serveStaticFile_error_fallback fsRead (pathJoin dirname "/submit")
    (pathJoin dirname "index.html") idx hmiss hidx]

/-! ## Witnesses -/

/-- Witness for C1: a fresh cached token (`"t0"`, expiry 100, now 90) is
returned with no call; two valid submissions from the initial cache at times
0 and 10 (lifetime 3600) make one exchange call in total. -/
theorem token_cache_reuse_witness :
    getAccessToken "svc@example.com" (fun _ => [1]) ⟨some "t0", 100⟩ 90 .transportError =
      ⟨.ok "t0", ⟨some "t0", 100⟩, 0, none⟩ ∧
    (processSubmit "svc@example.com" (fun _ => [1]) initialTokenState 0 "TS1"
        (.response true "T1" 3600) true
        (.parsed ⟨some "Ana", some "Silva", none, none, some "a@x.com"⟩)).exchangeCalls +
      (processSubmit "svc@example.com" (fun _ => [1])
          (processSubmit "svc@example.com" (fun _ => [1]) initialTokenState 0 "TS1"
              (.response true "T1" 3600) true
              (.parsed ⟨some "Ana", some "Silva", none, none, some "a@x.com"⟩)).state
          10 "TS2" .transportError true
          (.parsed ⟨some "Ana", some "Silva", none, none, some "a@x.com"⟩)).exchangeCalls
      = 1 :=
  token_cache_reuse "svc@example.com" (fun _ => [1]) ⟨some "t0", 100⟩ 90 0 10
    .transportError .transportError "t0" "T1" 3600 "TS1" "TS2" true true
    ⟨some "Ana", some "Silva", none, none, some "a@x.com"⟩
    ⟨some "Ana", some "Silva", none, none, some "a@x.com"⟩
    rfl (by decide) (by decide) (by decide) (by decide)
    (by decide) (by decide) (by decide) (by decide) (by decide) (by decide)

/-- Witness for C2: the submission `{name: "Ana", surname: "Silva",
email: "a@x.com"}` yields the row `["TS", "Ana", "Silva", "", "",
"a@x.com"]` and a 200 success response. -/
theorem submit_valid_row_200_witness :
    (processSubmit "svc@example.com" (fun _ => [1]) initialTokenState 0 "TS"
        (.response true "T" 3600) true
        (.parsed ⟨some "Ana", some "Silva", none, none, some "a@x.com"⟩)).appendArgs =
      [["TS", "Ana", "Silva", "", "", "a@x.com"]] ∧
    (processSubmit "svc@example.com" (fun _ => [1]) initialTokenState 0 "TS"
        (.response true "T" 3600) true
        (.parsed ⟨some "Ana", some "Silva", none, none, some "a@x.com"⟩)).status = 200 ∧
    (processSubmit "svc@example.com" (fun _ => [1]) initialTokenState 0 "TS"
        (.response true "T" 3600) true
        (.parsed ⟨some "Ana", some "Silva", none, none, some "a@x.com"⟩)).body
      = successBody :=
  submit_valid_row_200 "svc@example.com" (fun _ => [1]) initialTokenState 0 "TS" "T" 3600
    ⟨some "Ana", some "Silva", none, none, some "a@x.com"⟩
    (by decide) (by decide) (by decide)

/-- Witness for C3: a submission with no surname gets 400, appends nothing,
makes no exchange call, and leaves the cache untouched. -/
theorem submit_missing_field_400_witness :
    processSubmit "svc@example.com" (fun _ => [1]) initialTokenState 0 "TS"
        (.response true "T" 3600) true
        (.parsed ⟨some "Ana", none, none, none, some "a@x.com"⟩) =
      ⟨400, validationErrorBody, initialTokenState, 0, []⟩ ∧
    handleRequest "svc@example.com" (fun _ => [1]) "/app" (fun _ => none)
        initialTokenState 0 "TS" (.response true "T" 3600) true "POST" "/submit"
        (.parsed ⟨some "Ana", none, none, none, some "a@x.com"⟩) =
      ⟨⟨400, corsHeaders ++ [("Content-Type", "application/json")],
        some validationErrorBody⟩, initialTokenState, 0, []⟩ :=
  submit_missing_field_400 "svc@example.com" (fun _ => [1]) "/app" (fun _ => none)
    initialTokenState 0 "TS" (.response true "T" 3600) true
    ⟨some "Ana", none, none, none, some "a@x.com"⟩ (by decide)

/-- Witness for C4: a non-2xx token response makes the valid submission fail
with 500 while the (initially empty) cache stays exactly as it was. -/
theorem token_exchange_failure_witness :
    (∃ msg, (getAccessToken "svc@example.com" (fun _ => [1]) initialTokenState 0
        (.response false "X" 0)).result = .error msg) ∧
    (getAccessToken "svc@example.com" (fun _ => [1]) initialTokenState 0
        (.response false "X" 0)).state = initialTokenState ∧
    (processSubmit "svc@example.com" (fun _ => [1]) initialTokenState 0 "TS"
        (.response false "X" 0) true
        (.parsed ⟨some "Ana", some "Silva", none, none, some "a@x.com"⟩)).status = 500 ∧
    (processSubmit "svc@example.com" (fun _ => [1]) initialTokenState 0 "TS"
        (.response false "X" 0) true
        (.parsed ⟨some "Ana", some "Silva", none, none, some "a@x.com"⟩)).body
      = genericErrorBody ∧
    (processSubmit "svc@example.com" (fun _ => [1]) initialTokenState 0 "TS"
        (.response false "X" 0) true
        (.parsed ⟨some "Ana", some "Silva", none, none, some "a@x.com"⟩)).state
      = initialTokenState :=
  token_exchange_failure_500_cache_unchanged "svc@example.com" (fun _ => [1])
    initialTokenState 0 "TS" (.response false "X" 0) true
    ⟨some "Ana", some "Silva", none, none, some "a@x.com"⟩
    rfl (by decide) (by decide) (by decide) (by decide)

set_option maxRecDepth 4000 in
/-- Witness for C6: with email `a@b.c` at time 0 and signature bytes
`[0, 1, 2]`, the assertion evaluates to the concrete three-part JWT
`eyJhbGciOiJSUzI1NiIsInR5cCI6IkpXVCJ9.eyJpc3MiOiJhQGIuYyIsInNjb3BlIjoi...`
ending in `.AAEC`. -/
theorem jwt_assertion_construction_witness :
    ((getAccessToken "a@b.c" (fun _ => [0, 1, 2]) initialTokenState 0
        .transportError).assertionSent =
      some (base64url jwtHeaderJson ++ "." ++ base64url (jwtPayloadJson "a@b.c" 0)
        ++ "." ++ base64urlBytes ((fun _ => [0, 1, 2])
          (base64url jwtHeaderJson ++ "." ++ base64url (jwtPayloadJson "a@b.c" 0)))) ∧
     jwtHeaderJson = "\x7b\"alg\":\"RS256\",\"typ\":\"JWT\"\x7d" ∧
     jwtPayloadJson "a@b.c" 0 =
      "\x7b\"iss\":" ++ jsonString "a@b.c"
        ++ ",\"scope\":\"https://www.googleapis.com/auth/spreadsheets\""
        ++ ",\"aud\":\"https://oauth2.googleapis.com/token\""
        ++ ",\"exp\":" ++ toString ((0 : Int) + 3600)
        ++ ",\"iat\":" ++ toString (0 : Int) ++ "\x7d" ∧
     jsonString "a@b.c" = "\"" ++ jsonEscape "a@b.c" ++ "\"") ∧
    (getAccessToken "a@b.c" (fun _ => [0, 1, 2]) initialTokenState 0
        .transportError).assertionSent =
      some ("eyJhbGciOiJSUzI1NiIsInR5cCI6IkpXVCJ9.eyJpc3MiOiJhQGIuYyIsInNjb3BlIjoiaHR0cHM6Ly93d3cuZ29vZ2xlYXBpcy5jb20vYXV0aC9zcHJlYWRzaGVldHMiLCJhdWQiOiJodHRwczovL29hdXRoMi5nb29nbGVhcGlzLmNvbS90b2tlbiIsImV4cCI6MzYwMCwiaWF0IjowfQ.AAEC") :=
  ⟨jwt_assertion_construction "a@b.c" (fun _ => [0, 1, 2]) initialTokenState 0
      .transportError (by decide), by decide⟩

/-- Witness for C7: reading `/app/missing.png` fails, so the responder
serves the index content with a 200. -/
theorem static_read_error_serves_index_witness :
    serveStaticFile (fun p => if p = "/app/index.html" then some "INDEX" else none)
        "/app/missing.png" "/app/index.html" =
      ⟨200, [("Content-Type", "text/html")], some "INDEX"⟩ :=
  static_read_error_serves_index
    (fun p => if p = "/app/index.html" then some "INDEX" else none)
    "/app/missing.png" "/app/index.html" "INDEX" (by decide) (by decide)

/-- Witness for C8: an `OPTIONS` request to an arbitrary path gets the exact
204/no-body response, and its headers carry the CORS triple. -/
theorem cors_options_witness :
    (∃ rest, (handleRequest "svc@example.com" (fun _ => [1]) "/app" (fun _ => none)
        initialTokenState 0 "TS" .transportError true "OPTIONS" "/x"
        .failed).response.headers = corsHeaders ++ rest) ∧
    handleRequest "svc@example.com" (fun _ => [1]) "/app" (fun _ => none)
        initialTokenState 0 "TS" .transportError true "OPTIONS" "/x" .failed =
      ⟨⟨204, corsHeaders, none⟩, initialTokenState, 0, []⟩ :=
  ⟨(cors_on_every_response_and_options_204 "svc@example.com" (fun _ => [1]) "/app"
      (fun _ => none) initialTokenState 0 "TS" .transportError true "OPTIONS" "/x"
      .failed).1,
   (cors_on_every_response_and_options_204 "svc@example.com" (fun _ => [1]) "/app"
      (fun _ => none) initialTokenState 0 "TS" .transportError true "OPTIONS" "/x"
      .failed).2 rfl⟩

/-- Witness for C9: with a filesystem on which every read fails, the
responder still answers 200, with an empty body. -/
theorem static_responder_always_200_witness :
    (serveStaticFile (fun _ => none) "/app/x" "/app/index.html").status = 200 ∧
    (serveStaticFile (fun _ => none) "/app/x" "/app/index.html").body = none :=
  ⟨(static_responder_always_200 (fun _ => none) "/app/x" "/app/index.html").1,
   (static_responder_always_200 (fun _ => none) "/app/x" "/app/index.html").2 rfl rfl⟩

/-- Witness for C10 (amended): `GET /submit` with no such file on disk
returns 200 with the main page content and touches neither the cache nor the
sheet. -/
theorem non_post_submit_falls_through_witness :
    handleRequest "svc@example.com" (fun _ => [1]) "/app"
        (fun p => if p = "/app/index.html" then some "INDEX" else none)
        initialTokenState 0 "TS" .transportError true "GET" "/submit" .failed =
      ⟨⟨200, corsHeaders ++ [("Content-Type", "text/html")], some "INDEX"⟩,
        initialTokenState, 0, []⟩ :=
  non_post_submit_falls_through_to_static "svc@example.com" (fun _ => [1]) "/app"
    (fun p => if p = "/app/index.html" then some "INDEX" else none)
    initialTokenState 0 "TS" .transportError true "GET" "INDEX" .failed
    (by decide) (by decide) (by decide) (by decide)

end Server
